import Mathlib

/-!
Verification of the issue batch-creation scripts
`scripts/create_jira_issues.py` (REST API v3 payloads) and
`scripts/create_jira_issues_v2.py` (REST API v2 payloads, plus a
project-existence probe).

The network is modelled as an oracle (`HttpOracle`) mapping each request to
its outcome; `urllib.request.urlopen` semantics are mirrored by the
`PostOutcome` type: a 2xx response returns normally (with the JSON parse
result of the body), a non-2xx status raises `HTTPError` (code + body), and a
lower-level transport failure raises `URLError` (reason).  Python-level
exceptions that the scripts do not catch are modelled by `Except PyExc`.
-/

set_option autoImplicit false

/-- JSON values, as produced by `json.loads` / consumed by `json.dumps`. -/
inductive Json where
  | null
  | bool (b : Bool)
  | num (n : Int)
  | str (s : String)
  | arr (elems : List Json)
  | obj (fields : List (String × Json))

/-- Key lookup in the field list of a JSON object (Python dict access on unique keys). -/
def lookupField : List (String × Json) → String → Option Json
  | [], _ => none
  | (k, v) :: rest, key => if k = key then some v else lookupField rest key

/-- Access `j[key]` for a parsed JSON value: `some` when `j` is an object holding the
key, `none` otherwise (in Python the latter raises `KeyError`/`TypeError`). -/
def Json.getKey : Json → String → Option Json
  | .obj fields, key => lookupField fields key
  | _, _ => none

mutual

/-- Python `str()` on a decoded JSON value as used in f-string interpolation
(string escaping inside nested containers elided; the scripts only ever
interpolate the `key` field of the response, a JSON string). -/
def pyStr : Json → String
  | .null => "None"
  | .bool true => "True"
  | .bool false => "False"
  | .num n => toString n
  | .str s => s
  | .arr elems => "[" ++ pyStrList elems ++ "]"
  | .obj _ => "\x7b...\x7d"

def pyStrList : List Json → String
  | [] => ""
  | [j] => pyStr j
  | j :: rest => pyStr j ++ ", " ++ pyStrList rest

end

/-- One entry of the hardcoded `ISSUES` list: a Python dict with required
keys `summary` and `description`, and optional keys `issuetype` (read via
`.get` with default `"Task"`) and `labels` (presence tested with `in`). -/
structure IssueTemplate where
  summary : String
  description : String
  issuetype : Option String
  labels : Option (List String)

/-- Outcome of one `urlopen` call: 2xx success (with the JSON parse of the
response body, `none` when the body is not valid JSON), an HTTP error
status (raises `HTTPError` carrying code and body), or a transport failure
(raises `URLError` carrying the description of the reason). -/
inductive PostOutcome where
  | success (parsedBody : Option Json)
  | httpError (code : Nat) (body : String)
  | urlError (reason : String)

/-- The network, as an oracle from requests to outcomes. -/
structure HttpOracle where
  post : String → String → Json → PostOutcome
  get : String → String → PostOutcome

/-- An oracle answering every request with the same outcome. -/
def constOracle (o : PostOutcome) : HttpOracle := ⟨fun _ _ _ => o, fun _ _ => o⟩

/-- Python exceptions that escape a `try` block of the scripts uncaught. -/
inductive PyExc where
  | jsonDecodeError
  | keyError (key : String)
  | urlErrorUncaught (reason : String)

/-- The per-template outcome dict built by `create_issue`: either
`{"success": True, "key": ..., "id": ...}` (fields verbatim from the
response) or `{"success": False, "error": ...}`. -/
inductive CreationResult where
  | success (key : Json) (id : Json)
  | failure (error : String)

/-- A record of one HTTP request a script issued. -/
inductive Req where
  | postReq (url : String) (header : String) (payload : Json)
  | getReq (url : String) (header : String)

/-- Holds (`true`) exactly when the value is an `.ok`, i.e. no Python exception
escaped the modelled call. -/
def handled {α : Type} : Except PyExc α → Bool
  | .ok _ => true
  | .error _ => false

/-- Holds (`true`) exactly when `create_issue` returned the success dict. -/
def succeeded : Except PyExc CreationResult → Bool
  | .ok (.success _ _) => true
  | _ => false

/-! ### Base64 and the auth header -/

/-- The standard Base64 alphabet. -/
def b64Alphabet : String :=
  "ABCDEFGHIJKLMNOPQRSTUVWXYZabcdefghijklmnopqrstuvwxyz0123456789+/"

/-- The Base64 digit for a 6-bit value. -/
def b64Digit (n : Nat) : Char := b64Alphabet.data.getD n '='

/-- Standard Base64 of a byte sequence, 3 bytes to 4 digits, `=`-padded. -/
def b64Chunks : List Nat → List Char
  | b0 :: b1 :: b2 :: rest =>
    let w := b0 * 65536 + b1 * 256 + b2
    b64Digit (w / 262144) :: b64Digit (w / 4096 % 64) ::
      b64Digit (w / 64 % 64) :: b64Digit (w % 64) :: b64Chunks rest
  | [b0, b1] =>
    let w := b0 * 1024 + b1 * 4
    [b64Digit (w / 4096), b64Digit (w / 64 % 64), b64Digit (w % 64), '=']
  | [b0] =>
    let w := b0 * 16
    [b64Digit (w / 64), b64Digit (w % 64), '=', '=']
  | [] => []

/-- UTF-8 encoding of one character (Python `str.encode()` default). -/
def utf8Char (c : Char) : List Nat :=
  let n := c.toNat
  if n < 128 then [n]
  else if n < 2048 then [192 + n / 64, 128 + n % 64]
  else if n < 65536 then [224 + n / 4096, 128 + n / 64 % 64, 128 + n % 64]
  else [240 + n / 262144, 128 + n / 4096 % 64, 128 + n / 64 % 64, 128 + n % 64]

/-- UTF-8 bytes of a string. -/
def utf8Str (s : String) : List Nat := s.data.flatMap utf8Char

/-- Python `base64.b64encode(s.encode()).decode()`. -/
def b64encode (s : String) : String := String.mk (b64Chunks (utf8Str s))

/-! ### Environment configuration -/

/-- The three environment variables `main` reads (`os.environ.get`,
`none` when unset). -/
structure Env where
  jira_url : Option String
  jira_email : Option String
  jira_api_token : Option String

/-- Python truthiness of `os.environ.get(...)`: `None` and the empty
string are falsy, every other string is truthy. -/
def pyTruthy : Option String → Bool
  | none => false
  | some s => !(s == "")

/-- The `missing` list `main` builds: the names of the env vars whose
values fail the `if not ...` truthiness test, in the fixed check order. -/
def missingVars (env : Env) : List String :=
  (if pyTruthy env.jira_url then [] else ["JIRA_URL"]) ++
  (if pyTruthy env.jira_email then [] else ["JIRA_EMAIL"]) ++
  (if pyTruthy env.jira_api_token then [] else ["JIRA_API_TOKEN"])

/-- Python `jira_url.rstrip("/")`: remove every trailing `/`. -/
def rstripSlash (s : String) : String :=
  String.mk ((s.data.reverse.dropWhile (fun c => c == '/')).reverse)

/-! ## `scripts/create_jira_issues.py` (REST API v3) -/

namespace V1

def PROJECT_KEY : String := "BB"

def ISSUES : List IssueTemplate := [
  { summary := "Set up Playwright E2E testing infrastructure",
    description := "h2. Summary
Set up end-to-end testing infrastructure using Playwright to test the Beyond Burndown gadget UI.

h2. Background
We need E2E tests to verify the gadget functionality works correctly across browsers and simulates real user interactions. Unit tests are in place (440 total), but we need integration/E2E tests for complete coverage.

h2. Completed Work
* Installed Playwright and configured for multi-browser testing
* Created initial E2E test suite in e2e/gadget.spec.js
* Created mock data helpers in e2e/fixtures/forge-mock.js
* Added npm scripts for running tests

h2. Test Coverage
* Gadget loading states (loading, error, success)
* Tab navigation (all 7 tabs)
* Summary bar display
* What-If panel functionality
* Export menu
* Feasibility chart
* Accessibility checks

h2. How to Run
\x7bcode:bash\x7d
npm run test:e2e        # Run all tests
npm run test:e2e:ui     # Interactive UI mode
npm run test:e2e:headed # Visible browser
npm run test:e2e:report # View report
\x7bcode\x7d",
    issuetype := some "Task",
    labels := some ["testing", "e2e", "playwright"] },
  { summary := "Set up Forge bridge mocking for E2E tests",
    description := "h2. Summary
Implement proper Forge bridge mocking so E2E tests can run without a live Jira connection.

h2. Requirements
* Mock @forge/bridge invoke() function
* Mock view.getContext() for edit/view mode detection
* Mock view.submit() and view.close() for config panel
* Support different mock data scenarios

h2. Acceptance Criteria
* E2E tests run successfully without Jira connection
* Can simulate different data states (loading, error, empty, full data)
* Mock data is realistic and covers edge cases",
    issuetype := some "Task",
    labels := some ["testing", "e2e", "mocking"] },
  { summary := "Add CI/CD pipeline integration for E2E tests",
    description := "h2. Summary
Integrate Playwright E2E tests into the CI/CD pipeline.

h2. Requirements
* Run E2E tests on pull requests
* Run E2E tests before deployment
* Generate and archive test reports
* Fail build on test failures

h2. Tasks
* Create GitHub Actions workflow for E2E tests
* Configure Playwright for CI environment
* Set up artifact storage for test reports
* Add status badges to README

h2. Acceptance Criteria
* E2E tests run automatically on PRs
* Test results are visible in PR checks
* Reports are accessible for debugging failures",
    issuetype := some "Task",
    labels := some ["testing", "e2e", "ci-cd", "github-actions"] },
  { summary := "Create Jira integration E2E tests",
    description := "h2. Summary
Create E2E tests that verify the gadget works correctly when integrated with Jira.

h2. Test Scenarios
* Gadget loads correctly on Jira dashboard
* JQL queries return expected data
* Config panel saves settings correctly
* Data refreshes when issues change
* Edit mode vs view mode behavior

h2. Requirements
* Test against a dedicated test Jira project
* Use realistic test data
* Test error handling (invalid JQL, permissions, etc.)

h2. Acceptance Criteria
* Tests cover main Jira integration flows
* Tests are stable and not flaky
* Can run against staging environment",
    issuetype := some "Task",
    labels := some ["testing", "e2e", "jira-integration"] },
  { summary := "Add visual regression testing",
    description := "h2. Summary
Implement visual regression testing to catch unintended UI changes.

h2. Requirements
* Capture baseline screenshots for all views
* Compare against baselines on each test run
* Highlight visual differences
* Easy baseline update workflow

h2. Views to Test
* Feasibility chart (daily, weekly, monthly views)
* What-If panel (all scenario types)
* Compliance panel (with and without violations)
* Dependencies view (with and without cycles)
* Team health view
* Status report
* Config panel

h2. Acceptance Criteria
* Visual tests catch CSS/layout regressions
* False positives are minimized
* Baseline updates are easy to review and approve",
    issuetype := some "Task",
    labels := some ["testing", "e2e", "visual-regression"] },
  { summary := "Add mobile and tablet viewport E2E tests",
    description := "h2. Summary
Add E2E tests for different viewport sizes to ensure responsive design works correctly.

h2. Viewports to Test
* Mobile (375x667 - iPhone SE)
* Mobile Large (414x896 - iPhone 11)
* Tablet (768x1024 - iPad)
* Desktop (1280x720)
* Desktop Large (1920x1080)

h2. Requirements
* Test main flows on each viewport
* Verify responsive breakpoints work correctly
* Check touch interactions on mobile viewports

h2. Acceptance Criteria
* All viewports pass E2E tests
* No horizontal scrolling on mobile
* Touch targets are appropriately sized",
    issuetype := some "Task",
    labels := some ["testing", "e2e", "responsive", "mobile"] }
]

/-- Function `get_auth_header`: Basic auth from `email:api_token`, Base64-encoded. -/
def get_auth_header (email api_token : String) : String :=
  let credentials := email ++ ":" ++ api_token
  "Basic " ++ b64encode credentials

/-- The create endpoint URL built at the top of `create_issue`. -/
def issueUrl (jira_url : String) : String := jira_url ++ "/rest/api/3/issue"

/-- The JSON request body `create_issue` builds: rich-text (ADF) description,
`issuetype` via `.get(..., "Task")`, and `labels` added afterwards only when
the `labels` key is present in the template dict. -/
def buildPayload (project_key : String) (issue_data : IssueTemplate) : Json :=
  .obj [("fields", .obj (
    [("project", .obj [("key", .str project_key)]),
     ("summary", .str issue_data.summary),
     ("description", .obj
       [("type", .str "doc"), ("version", .num 1),
        ("content", .arr [.obj
          [("type", .str "paragraph"),
           ("content", .arr [.obj
             [("type", .str "text"),
              ("text", .str issue_data.description)]])]])]),
     ("issuetype", .obj [("name", .str (issue_data.issuetype.getD "Task"))])]
    ++ (match issue_data.labels with
        | some ls => [("labels", .arr (ls.map .str))]
        | none => [])))]

/-- Function `create_issue`: POST the payload; on 2xx parse the body and read
`result["key"]` and `result["id"]` (uncaught exception when the body is not
valid JSON or a key is missing); `HTTPError` is caught into a failure dict
carrying `f"{e.code}: {error_body}"`; `URLError` is caught into a failure
dict carrying `str(e.reason)`. -/
def create_issue (http : HttpOracle) (jira_url auth_header project_key : String)
    (issue_data : IssueTemplate) : Except PyExc CreationResult :=
  match http.post (issueUrl jira_url) auth_header (buildPayload project_key issue_data) with
  | .success none => .error .jsonDecodeError
  | .success (some result) =>
    match result.getKey "key" with
    | none => .error (.keyError "key")
    | some k =>
      match result.getKey "id" with
      | none => .error (.keyError "id")
      | some i => .ok (.success k i)
  | .httpError code body => .ok (.failure (toString code ++ ": " ++ body))
  | .urlError reason => .ok (.failure reason)

/-- The `for issue in ISSUES` loop of `main`: one `create_issue` call per
template, appending `result["key"]` to `created` on success and
`issue["summary"]` to `failed` otherwise; also returns the list of HTTP
requests issued, in order.  An uncaught exception aborts the whole run. -/
def processIssues (http : HttpOracle) (jira_url auth_header project_key : String) :
    List IssueTemplate → Except PyExc (List Json × List String × List Req)
  | [] => .ok ([], [], [])
  | issue :: rest =>
    let req := Req.postReq (issueUrl jira_url) auth_header (buildPayload project_key issue)
    match create_issue http jira_url auth_header project_key issue with
    | .error e => .error e
    | .ok (.success k _) =>
      match processIssues http jira_url auth_header project_key rest with
      | .error e => .error e
      | .ok (created, failed, reqs) => .ok (k :: created, failed, req :: reqs)
    | .ok (.failure _) =>
      match processIssues http jira_url auth_header project_key rest with
      | .error e => .error e
      | .ok (created, failed, reqs) => .ok (created, issue.summary :: failed, req :: reqs)

/-- Observable outcome of a completed (non-crashing) run of `main`. -/
structure Report where
  missing : List String
  requests : List Req
  created : List Json
  failed : List String
  exitCode : Nat

/-- Function `main`: read env, list missing vars (exit 1 before any request when
nonempty), strip trailing slashes from the URL, build the auth header, run
the batch, and exit 1 exactly when `failed` is nonempty. -/
def main (env : Env) (http : HttpOracle) : Except PyExc Report :=
  let missing := missingVars env
  if missing.isEmpty then
    let jira_url := rstripSlash (env.jira_url.getD "")
    let auth_header := get_auth_header (env.jira_email.getD "") (env.jira_api_token.getD "")
    match processIssues http jira_url auth_header PROJECT_KEY ISSUES with
    | .error e => .error e
    | .ok (created, failed, reqs) =>
      .ok ⟨[], reqs, created, failed, if failed.isEmpty then 0 else 1⟩
  else
    .ok ⟨missing, [], [], [], 1⟩

end V1

/-! ## `scripts/create_jira_issues_v2.py` (REST API v2, with project probe) -/

namespace V2

def PROJECT_KEY : String := "BB"

def ISSUES : List IssueTemplate := [
  { summary := "Set up Playwright E2E testing infrastructure",
    description := "Summary
=======
Set up end-to-end testing infrastructure using Playwright to test the Beyond Burndown gadget UI.

Background
==========
We need E2E tests to verify the gadget functionality works correctly across browsers and simulates real user interactions. Unit tests are in place (440 total), but we need integration/E2E tests for complete coverage.

Completed Work
==============
- Installed Playwright and configured for multi-browser testing
- Created initial E2E test suite in e2e/gadget.spec.js
- Created mock data helpers in e2e/fixtures/forge-mock.js
- Added npm scripts for running tests

Test Coverage
=============
- Gadget loading states (loading, error, success)
- Tab navigation (all 7 tabs)
- Summary bar display
- What-If panel functionality
- Export menu
- Feasibility chart
- Accessibility checks

How to Run
==========
npm run test:e2e        # Run all tests
npm run test:e2e:ui     # Interactive UI mode
npm run test:e2e:headed # Visible browser
npm run test:e2e:report # View report",
    issuetype := some "Task",
    labels := some ["testing", "e2e", "playwright"] },
  { summary := "Set up Forge bridge mocking for E2E tests",
    description := "Summary
=======
Implement proper Forge bridge mocking so E2E tests can run without a live Jira connection.

Requirements
============
- Mock @forge/bridge invoke() function
- Mock view.getContext() for edit/view mode detection
- Mock view.submit() and view.close() for config panel
- Support different mock data scenarios

Acceptance Criteria
==================
- E2E tests run successfully without Jira connection
- Can simulate different data states (loading, error, empty, full data)
- Mock data is realistic and covers edge cases",
    issuetype := some "Task",
    labels := some ["testing", "e2e", "mocking"] },
  { summary := "Add CI/CD pipeline integration for E2E tests",
    description := "Summary
=======
Integrate Playwright E2E tests into the CI/CD pipeline.

Requirements
============
- Run E2E tests on pull requests
- Run E2E tests before deployment
- Generate and archive test reports
- Fail build on test failures

Tasks
=====
- Create GitHub Actions workflow for E2E tests
- Configure Playwright for CI environment
- Set up artifact storage for test reports
- Add status badges to README

Acceptance Criteria
==================
- E2E tests run automatically on PRs
- Test results are visible in PR checks
- Reports are accessible for debugging failures",
    issuetype := some "Task",
    labels := some ["testing", "e2e", "ci-cd", "github-actions"] },
  { summary := "Create Jira integration E2E tests",
    description := "Summary
=======
Create E2E tests that verify the gadget works correctly when integrated with Jira.

Test Scenarios
==============
- Gadget loads correctly on Jira dashboard
- JQL queries return expected data
- Config panel saves settings correctly
- Data refreshes when issues change
- Edit mode vs view mode behavior

Requirements
============
- Test against a dedicated test Jira project
- Use realistic test data
- Test error handling (invalid JQL, permissions, etc.)

Acceptance Criteria
==================
- Tests cover main Jira integration flows
- Tests are stable and not flaky
- Can run against staging environment",
    issuetype := some "Task",
    labels := some ["testing", "e2e", "jira-integration"] },
  { summary := "Add visual regression testing",
    description := "Summary
=======
Implement visual regression testing to catch unintended UI changes.

Requirements
============
- Capture baseline screenshots for all views
- Compare against baselines on each test run
- Highlight visual differences
- Easy baseline update workflow

Views to Test
=============
- Feasibility chart (daily, weekly, monthly views)
- What-If panel (all scenario types)
- Compliance panel (with and without violations)
- Dependencies view (with and without cycles)
- Team health view
- Status report
- Config panel

Acceptance Criteria
==================
- Visual tests catch CSS/layout regressions
- False positives are minimized
- Baseline updates are easy to review and approve",
    issuetype := some "Task",
    labels := some ["testing", "e2e", "visual-regression"] },
  { summary := "Add mobile and tablet viewport E2E tests",
    description := "Summary
=======
Add E2E tests for different viewport sizes to ensure responsive design works correctly.

Viewports to Test
=================
- Mobile (375x667 - iPhone SE)
- Mobile Large (414x896 - iPhone 11)
- Tablet (768x1024 - iPad)
- Desktop (1280x720)
- Desktop Large (1920x1080)

Requirements
============
- Test main flows on each viewport
- Verify responsive breakpoints work correctly
- Check touch interactions on mobile viewports

Acceptance Criteria
==================
- All viewports pass E2E tests
- No horizontal scrolling on mobile
- Touch targets are appropriately sized",
    issuetype := some "Task",
    labels := some ["testing", "e2e", "responsive", "mobile"] }
]

/-- Function `get_auth_header`: Basic auth from `email:api_token`, Base64-encoded
(verbatim duplicate of the v1 function). -/
def get_auth_header (email api_token : String) : String :=
  let credentials := email ++ ":" ++ api_token
  "Basic " ++ b64encode credentials

/-- The create endpoint URL built at the top of `create_issue` (API v2). -/
def issueUrl (jira_url : String) : String := jira_url ++ "/rest/api/2/issue"

/-- The project-probe URL built at the top of `check_project_exists`. -/
def projectUrl (jira_url project_key : String) : String :=
  jira_url ++ "/rest/api/2/project/" ++ project_key

/-- The browse URL printed and stored for a created issue,
from `jira_url` and the `key` field of the response dict. -/
def browseUrl (jira_url : String) (key : Json) : String :=
  jira_url ++ "/browse/" ++ pyStr key

/-- The JSON request body `create_issue` builds (API v2): plain-string
description; `labels` added afterwards only when the `labels` key is
present in the template dict. -/
def buildPayload (project_key : String) (issue_data : IssueTemplate) : Json :=
  .obj [("fields", .obj (
    [("project", .obj [("key", .str project_key)]),
     ("summary", .str issue_data.summary),
     ("description", .str issue_data.description),
     ("issuetype", .obj [("name", .str (issue_data.issuetype.getD "Task"))])]
    ++ (match issue_data.labels with
        | some ls => [("labels", .arr (ls.map .str))]
        | none => [])))]

/-- Function `create_issue` (API v2): identical control flow to the v1 function. -/
def create_issue (http : HttpOracle) (jira_url auth_header project_key : String)
    (issue_data : IssueTemplate) : Except PyExc CreationResult :=
  match http.post (issueUrl jira_url) auth_header (buildPayload project_key issue_data) with
  | .success none => .error .jsonDecodeError
  | .success (some result) =>
    match result.getKey "key" with
    | none => .error (.keyError "key")
    | some k =>
      match result.getKey "id" with
      | none => .error (.keyError "id")
      | some i => .ok (.success k i)
  | .httpError code body => .ok (.failure (toString code ++ ": " ++ body))
  | .urlError reason => .ok (.failure reason)

/-- Function `check_project_exists`: GET the project URL; a 2xx response returns
`True`; the `except` clause catches only `error.HTTPError` and returns
`False`; a plain `URLError` (transport failure) is NOT caught and
propagates out of the function. -/
def check_project_exists (http : HttpOracle) (jira_url auth_header project_key : String) :
    Except PyExc Bool :=
  match http.get (projectUrl jira_url project_key) auth_header with
  | .success _ => .ok true
  | .httpError _ _ => .ok false
  | .urlError reason => .error (.urlErrorUncaught reason)

/-- A `created` entry of the v2 loop: the response key, the template
summary and the constructed browse URL. -/
structure CreatedRec where
  key : Json
  summary : String
  url : String

/-- The `for i, issue in enumerate(ISSUES, 1)` loop of `main`: one
`create_issue` call per template, appending a `CreatedRec` on success and
`issue["summary"]` to `failed` otherwise; also returns the list of HTTP
requests issued, in order. -/
def processIssues (http : HttpOracle) (jira_url auth_header project_key : String) :
    List IssueTemplate → Except PyExc (List CreatedRec × List String × List Req)
  | [] => .ok ([], [], [])
  | issue :: rest =>
    let req := Req.postReq (issueUrl jira_url) auth_header (buildPayload project_key issue)
    match create_issue http jira_url auth_header project_key issue with
    | .error e => .error e
    | .ok (.success k _) =>
      match processIssues http jira_url auth_header project_key rest with
      | .error e => .error e
      | .ok (created, failed, reqs) =>
        .ok (⟨k, issue.summary, browseUrl jira_url k⟩ :: created, failed, req :: reqs)
    | .ok (.failure _) =>
      match processIssues http jira_url auth_header project_key rest with
      | .error e => .error e
      | .ok (created, failed, reqs) => .ok (created, issue.summary :: failed, req :: reqs)

/-- Observable outcome of a completed (non-crashing) run of the v2 `main`. -/
structure Report where
  missing : List String
  requests : List Req
  created : List CreatedRec
  failed : List String
  exitCode : Nat

/-- The v2 `main`: read env, list missing vars (exit 1 before any request
when nonempty), strip trailing slashes, build the auth header, probe the
project (exit 1 when the probe returns `False`; crash when it raises), run
the batch, and exit 1 exactly when `failed` is nonempty. -/
def main (env : Env) (http : HttpOracle) : Except PyExc Report :=
  let missing := missingVars env
  if missing.isEmpty then
    let jira_url := rstripSlash (env.jira_url.getD "")
    let auth_header := get_auth_header (env.jira_email.getD "") (env.jira_api_token.getD "")
    let probeReq := Req.getReq (projectUrl jira_url PROJECT_KEY) auth_header
    match check_project_exists http jira_url auth_header PROJECT_KEY with
    | .error e => .error e
    | .ok false => .ok ⟨[], [probeReq], [], [], 1⟩
    | .ok true =>
      match processIssues http jira_url auth_header PROJECT_KEY ISSUES with
      | .error e => .error e
      | .ok (created, failed, reqs) =>
        .ok ⟨[], probeReq :: reqs, created, failed, if failed.isEmpty then 0 else 1⟩
  else
    .ok ⟨missing, [], [], [], 1⟩

end V2

/-! ### Derived observations and concrete fixtures -/

/-- The `labels` entry of the `fields` object of a request payload. -/
def payloadLabels (payload : Json) : Option Json :=
  match payload.getKey "fields" with
  | some fields => fields.getKey "labels"
  | none => none

/-- The create-POST outcomes on which `create_issue` raises: a 2xx response
whose body is not valid JSON or whose JSON lacks `key` or `id`. -/
def malformedSuccess : PostOutcome → Bool
  | .success none => true
  | .success (some j) => (j.getKey "key").isNone || (j.getKey "id").isNone
  | .httpError _ _ => false
  | .urlError _ => false

/-- Transport-failure outcomes (a `URLError` that is not an `HTTPError`). -/
def isTransport : PostOutcome → Bool
  | .urlError _ => true
  | .success _ => false
  | .httpError _ _ => false

/-- A small template whose dict has both optional keys. -/
def sampleA : IssueTemplate := ⟨"s1", "d1", some "Task", some ["l1"]⟩

/-- A small template whose dict has neither optional key. -/
def sampleB : IssueTemplate := ⟨"s2", "d2", none, none⟩

/-- A template whose `labels` key is present but holds the empty list. -/
def emptyLabels : IssueTemplate := ⟨"s", "d", some "Task", some []⟩

/-- An environment with none of the three variables set. -/
def envNone : Env := ⟨none, none, none⟩

/-- A fully configured environment (base URL with a trailing slash). -/
def envOK : Env := ⟨some "https://x.atlassian.net/", some "a@b.com", some "tok123"⟩

/-- A network where every request fails at the transport level. -/
def refusedOracle : HttpOracle := constOracle (.urlError "connection refused")

/-- The HTTP 400 body from the mock-endpoint scenario in the spec. -/
def body400 : String := "\x7b\x22errorMessages\x22:[\x22bad request\x22]\x7d"

/-- A network where every request is rejected with HTTP 400. -/
def badReqOracle : HttpOracle := constOracle (.httpError 400 body400)

/-- A successful create-response body (with an extra field beyond `key`/`id`). -/
def okBody : Json := .obj
  [("id", .str "10001"), ("key", .str "BB-1"),
   ("self", .str "https://x.atlassian.net/rest/api/3/issue/10001")]

/-- A network where every request succeeds with `okBody`. -/
def okOracle : HttpOracle := constOracle (.success (some okBody))

/-- A network where every request is rejected with HTTP 404. -/
def nf404Oracle : HttpOracle := constOracle (.httpError 404 "project not found")

/-- A 2xx response whose JSON body lacks the `key` and `id` fields. -/
def noKeyOracle : HttpOracle := constOracle (.success (some (.obj [("self", .str "x")])))

/-! ### Helper lemmas -/

/-- The first element surviving `dropWhile p` fails `p`. -/
theorem head?_dropWhile_false {α : Type} (p : α → Bool) :
    ∀ (l : List α) (a : α), (l.dropWhile p).head? = some a → p a = false := by
  intro l
  induction l with
  | nil => intro a h; cases h
  | cons x xs ih =>
    intro a h
    rw [List.dropWhile_cons] at h
    by_cases hx : p x = true
    · rw [if_pos hx] at h
      exact ih a h
    · rw [if_neg hx] at h
      injection h with h'
      subst h'
      simpa using hx

/-- Whatever the last character of `rstripSlash s` is, it is not `/`. -/
theorem rstripSlash_no_trailing (s : String) (c : Char)
    (h : (rstripSlash s).data.getLast? = some c) : (c == '/') = false := by
  have hd : (rstripSlash s).data
      = (s.data.reverse.dropWhile (fun c => c == '/')).reverse := rfl
  rw [hd, List.getLast?_reverse] at h
  exact head?_dropWhile_false (fun x => x == '/') s.data.reverse c h

/-- When every per-template call is handled, the v1 batch loop completes. -/
theorem v1_processIssues_handled (http : HttpOracle) (u hdr pk : String) :
    ∀ ts : List IssueTemplate,
      (∀ t ∈ ts, handled (V1.create_issue http u hdr pk t) = true) →
      handled (V1.processIssues http u hdr pk ts) = true := by
  intro ts
  induction ts with
  | nil => intro _; rfl
  | cons t rest ih =>
    intro hall
    have ht := hall t (List.mem_cons_self t rest)
    have hrest := ih (fun x hx => hall x (List.mem_cons_of_mem t hx))
    simp only [V1.processIssues]
    cases hc : V1.create_issue http u hdr pk t with
    | error e => rw [hc] at ht; simp [handled] at ht
    | ok r =>
      cases r with
      | success k i =>
        cases hp : V1.processIssues http u hdr pk rest with
        | error e => rw [hp] at hrest; simp [handled] at hrest
        | ok triple => obtain ⟨c, f, rs⟩ := triple; rfl
      | failure err =>
        cases hp : V1.processIssues http u hdr pk rest with
        | error e => rw [hp] at hrest; simp [handled] at hrest
        | ok triple => obtain ⟨c, f, rs⟩ := triple; rfl

/-- When every per-template call is handled, the v2 batch loop completes. -/
theorem v2_processIssues_handled (http : HttpOracle) (u hdr pk : String) :
    ∀ ts : List IssueTemplate,
      (∀ t ∈ ts, handled (V2.create_issue http u hdr pk t) = true) →
      handled (V2.processIssues http u hdr pk ts) = true := by
  intro ts
  induction ts with
  | nil => intro _; rfl
  | cons t rest ih =>
    intro hall
    have ht := hall t (List.mem_cons_self t rest)
    have hrest := ih (fun x hx => hall x (List.mem_cons_of_mem t hx))
    simp only [V2.processIssues]
    cases hc : V2.create_issue http u hdr pk t with
    | error e => rw [hc] at ht; simp [handled] at ht
    | ok r =>
      cases r with
      | success k i =>
        cases hp : V2.processIssues http u hdr pk rest with
        | error e => rw [hp] at hrest; simp [handled] at hrest
        | ok triple => obtain ⟨c, f, rs⟩ := triple; rfl
      | failure err =>
        cases hp : V2.processIssues http u hdr pk rest with
        | error e => rw [hp] at hrest; simp [handled] at hrest
        | ok triple => obtain ⟨c, f, rs⟩ := triple; rfl

/-- Characterization of a completed v1 batch loop: one request per template
in declaration order, `failed` holds exactly the summaries of the
non-successful templates in order, and every template lands in exactly one
of the two accumulators. -/
theorem v1_processIssues_spec (http : HttpOracle) (u hdr pk : String) :
    ∀ (ts : List IssueTemplate) (c : List Json) (f : List String) (rs : List Req),
      V1.processIssues http u hdr pk ts = .ok (c, f, rs) →
      rs = ts.map (fun t => Req.postReq (V1.issueUrl u) hdr (V1.buildPayload pk t))
      ∧ f = (ts.filter (fun t => !succeeded (V1.create_issue http u hdr pk t))).map
          (fun t => t.summary)
      ∧ c.length = (ts.filter (fun t => succeeded (V1.create_issue http u hdr pk t))).length
      ∧ c.length + f.length = ts.length := by
  intro ts
  induction ts with
  | nil =>
    intro c f rs h
    simp only [V1.processIssues, Except.ok.injEq, Prod.mk.injEq] at h
    obtain ⟨h1, h2, h3⟩ := h
    subst h1; subst h2; subst h3
    simp
  | cons t rest ih =>
    intro c f rs h
    simp only [V1.processIssues] at h
    cases hc : V1.create_issue http u hdr pk t with
    | error e => rw [hc] at h; simp at h
    | ok r =>
      rw [hc] at h
      cases r with
      | success k i =>
        cases hp : V1.processIssues http u hdr pk rest with
        | error e => rw [hp] at h; simp at h
        | ok triple =>
          obtain ⟨c', f', rs'⟩ := triple
          rw [hp] at h
          simp only [Except.ok.injEq, Prod.mk.injEq] at h
          obtain ⟨h1, h2, h3⟩ := h
          subst h1; subst h2; subst h3
          obtain ⟨ih1, ih2, ih3, ih4⟩ := ih c' f' rs' hp
          refine ⟨?_, ?_, ?_, ?_⟩
          · simp [ih1]
          · simp [List.filter_cons, hc, succeeded, ih2]
          · simp [List.filter_cons, hc, succeeded, ih3]
          · simp only [List.length_cons]; omega
      | failure err =>
        cases hp : V1.processIssues http u hdr pk rest with
        | error e => rw [hp] at h; simp at h
        | ok triple =>
          obtain ⟨c', f', rs'⟩ := triple
          rw [hp] at h
          simp only [Except.ok.injEq, Prod.mk.injEq] at h
          obtain ⟨h1, h2, h3⟩ := h
          subst h1; subst h2; subst h3
          obtain ⟨ih1, ih2, ih3, ih4⟩ := ih c' f' rs' hp
          refine ⟨?_, ?_, ?_, ?_⟩
          · simp [ih1]
          · simp [List.filter_cons, hc, succeeded, ih2]
          · simp [List.filter_cons, hc, succeeded, ih3]
          · simp only [List.length_cons]; omega

/-- Characterization of a completed v2 batch loop (same shape as v1). -/
theorem v2_processIssues_spec (http : HttpOracle) (u hdr pk : String) :
    ∀ (ts : List IssueTemplate) (c : List V2.CreatedRec) (f : List String) (rs : List Req),
      V2.processIssues http u hdr pk ts = .ok (c, f, rs) →
      rs = ts.map (fun t => Req.postReq (V2.issueUrl u) hdr (V2.buildPayload pk t))
      ∧ f = (ts.filter (fun t => !succeeded (V2.create_issue http u hdr pk t))).map
          (fun t => t.summary)
      ∧ c.length = (ts.filter (fun t => succeeded (V2.create_issue http u hdr pk t))).length
      ∧ c.length + f.length = ts.length := by
  intro ts
  induction ts with
  | nil =>
    intro c f rs h
    simp only [V2.processIssues, Except.ok.injEq, Prod.mk.injEq] at h
    obtain ⟨h1, h2, h3⟩ := h
    subst h1; subst h2; subst h3
    simp
  | cons t rest ih =>
    intro c f rs h
    simp only [V2.processIssues] at h
    cases hc : V2.create_issue http u hdr pk t with
    | error e => rw [hc] at h; simp at h
    | ok r =>
      rw [hc] at h
      cases r with
      | success k i =>
        cases hp : V2.processIssues http u hdr pk rest with
        | error e => rw [hp] at h; simp at h
        | ok triple =>
          obtain ⟨c', f', rs'⟩ := triple
          rw [hp] at h
          simp only [Except.ok.injEq, Prod.mk.injEq] at h
          obtain ⟨h1, h2, h3⟩ := h
          subst h1; subst h2; subst h3
          obtain ⟨ih1, ih2, ih3, ih4⟩ := ih c' f' rs' hp
          refine ⟨?_, ?_, ?_, ?_⟩
          · simp [ih1]
          · simp [List.filter_cons, hc, succeeded, ih2]
          · simp [List.filter_cons, hc, succeeded, ih3]
          · simp only [List.length_cons]; omega
      | failure err =>
        cases hp : V2.processIssues http u hdr pk rest with
        | error e => rw [hp] at h; simp at h
        | ok triple =>
          obtain ⟨c', f', rs'⟩ := triple
          rw [hp] at h
          simp only [Except.ok.injEq, Prod.mk.injEq] at h
          obtain ⟨h1, h2, h3⟩ := h
          subst h1; subst h2; subst h3
          obtain ⟨ih1, ih2, ih3, ih4⟩ := ih c' f' rs' hp
          refine ⟨?_, ?_, ?_, ?_⟩
          · simp [ih1]
          · simp [List.filter_cons, hc, succeeded, ih2]
          · simp [List.filter_cons, hc, succeeded, ih3]
          · simp only [List.length_cons]; omega

/-! ### Claims -/

/-- C1: for every base URL, auth header, project key and issue template,
`create_issue` (both scripts) returns a discriminated result: on a 2xx
response whose JSON body contains `key` and `id` it returns the success
dict carrying those two fields verbatim; on an HTTP error response it
returns a failure dict whose error detail is the numeric status code,
`": "`, and the raw response body; on a transport failure it returns a
failure dict whose error detail is the description of the transport error. -/
theorem claim_C1 (http : HttpOracle) (u hdr pk : String) (t : IssueTemplate) :
    (∀ (j key idv : Json),
      http.post (V1.issueUrl u) hdr (V1.buildPayload pk t) = .success (some j) →
      j.getKey "key" = some key → j.getKey "id" = some idv →
      V1.create_issue http u hdr pk t = .ok (.success key idv))
  ∧ (∀ (code : Nat) (body : String),
      http.post (V1.issueUrl u) hdr (V1.buildPayload pk t) = .httpError code body →
      V1.create_issue http u hdr pk t = .ok (.failure (toString code ++ ": " ++ body)))
  ∧ (∀ reason : String,
      http.post (V1.issueUrl u) hdr (V1.buildPayload pk t) = .urlError reason →
      V1.create_issue http u hdr pk t = .ok (.failure reason))
  ∧ (∀ (j key idv : Json),
      http.post (V2.issueUrl u) hdr (V2.buildPayload pk t) = .success (some j) →
      j.getKey "key" = some key → j.getKey "id" = some idv →
      V2.create_issue http u hdr pk t = .ok (.success key idv))
  ∧ (∀ (code : Nat) (body : String),
      http.post (V2.issueUrl u) hdr (V2.buildPayload pk t) = .httpError code body →
      V2.create_issue http u hdr pk t = .ok (.failure (toString code ++ ": " ++ body)))
  ∧ (∀ reason : String,
      http.post (V2.issueUrl u) hdr (V2.buildPayload pk t) = .urlError reason →
      V2.create_issue http u hdr pk t = .ok (.failure reason)) := by
  refine ⟨?_, ?_, ?_, ?_, ?_, ?_⟩
  · intro j key idv hpost hk hi
    simp only [V1.create_issue, hpost, hk, hi]
  · intro code body hpost
    simp only [V1.create_issue, hpost]
  · intro reason hpost
    simp only [V1.create_issue, hpost]
  · intro j key idv hpost hk hi
    simp only [V2.create_issue, hpost, hk, hi]
  · intro code body hpost
    simp only [V2.create_issue, hpost]
  · intro reason hpost
    simp only [V2.create_issue, hpost]

/-- Witness for C1 at concrete inputs: a 2xx response carrying
`key`/`id`, an HTTP 400 rejection, and a refused connection. -/
theorem claim_C1_witness :
    V1.create_issue okOracle "https://x.atlassian.net" "h" "BB" sampleA
      = .ok (.success (.str "BB-1") (.str "10001"))
    ∧ V2.create_issue badReqOracle "https://x.atlassian.net" "h" "BB" sampleA
      = .ok (.failure (toString 400 ++ ": " ++ body400))
    ∧ V1.create_issue refusedOracle "https://x.atlassian.net" "h" "BB" sampleA
      = .ok (.failure "connection refused") :=
  ⟨(claim_C1 okOracle "https://x.atlassian.net" "h" "BB" sampleA).1
      okBody (.str "BB-1") (.str "10001") rfl rfl rfl,
   (claim_C1 badReqOracle "https://x.atlassian.net" "h" "BB" sampleA).2.2.2.2.1
      400 body400 rfl,
   (claim_C1 refusedOracle "https://x.atlassian.net" "h" "BB" sampleA).2.2.1
      "connection refused" rfl⟩

/-- C5 (amended): `check_project_exists` returns `True` only on a 2xx
response and `False` on every HTTP error status; but on a transport-level
failure it does NOT return `False`: the `URLError` propagates uncaught
(the `except` clause catches only `HTTPError`). -/
theorem claim_C5 (http : HttpOracle) (u hdr pk : String) :
    (∀ b, http.get (V2.projectUrl u pk) hdr = .success b →
      V2.check_project_exists http u hdr pk = .ok true)
  ∧ (∀ (code : Nat) (body : String),
      http.get (V2.projectUrl u pk) hdr = .httpError code body →
      V2.check_project_exists http u hdr pk = .ok false)
  ∧ (∀ reason : String, http.get (V2.projectUrl u pk) hdr = .urlError reason →
      V2.check_project_exists http u hdr pk = .error (.urlErrorUncaught reason)) := by
  refine ⟨?_, ?_, ?_⟩
  · intro b hget
    simp only [V2.check_project_exists, hget]
  · intro code body hget
    simp only [V2.check_project_exists, hget]
  · intro reason hget
    simp only [V2.check_project_exists, hget]

/-- Witness for C5 at concrete inputs: a 2xx probe answer and an HTTP 404. -/
theorem claim_C5_witness :
    V2.check_project_exists okOracle "https://x.atlassian.net" "h" "BB" = .ok true
    ∧ V2.check_project_exists nf404Oracle "https://x.atlassian.net" "h" "BB" = .ok false :=
  ⟨(claim_C5 okOracle "https://x.atlassian.net" "h" "BB").1 (some okBody) rfl,
   (claim_C5 nf404Oracle "https://x.atlassian.net" "h" "BB").2.1 404 "project not found" rfl⟩

/-- Counterexample to C5 as stated: on a transport failure
(`connection refused`) `check_project_exists` does not return `False` —
it raises, because only `HTTPError` is caught. -/
theorem claim_C5_cex :
    V2.check_project_exists refusedOracle "https://x.atlassian.net" "Basic abc" "BB"
      = .error (.urlErrorUncaught "connection refused") := rfl

/-- C6 (amended): a create call never raises on an HTTP-error or
transport outcome, and the probe never raises on a 2xx or HTTP-error
outcome — but the wrapping is not exhaustive: a create call raises exactly
on a 2xx response whose body is not valid JSON or lacks `key`/`id`, and
the probe raises exactly on a transport failure. -/
theorem claim_C6 (http : HttpOracle) (u hdr pk : String) (t : IssueTemplate) :
    handled (V1.create_issue http u hdr pk t)
      = !malformedSuccess (http.post (V1.issueUrl u) hdr (V1.buildPayload pk t))
  ∧ handled (V2.create_issue http u hdr pk t)
      = !malformedSuccess (http.post (V2.issueUrl u) hdr (V2.buildPayload pk t))
  ∧ handled (V2.check_project_exists http u hdr pk)
      = !isTransport (http.get (V2.projectUrl u pk) hdr) := by
  refine ⟨?_, ?_, ?_⟩
  · cases hpost : http.post (V1.issueUrl u) hdr (V1.buildPayload pk t) with
    | success ob =>
      cases ob with
      | none => simp [V1.create_issue, hpost, handled, malformedSuccess]
      | some j =>
        cases hk : j.getKey "key" with
        | none => simp [V1.create_issue, hpost, hk, handled, malformedSuccess]
        | some k =>
          cases hi : j.getKey "id" with
          | none => simp [V1.create_issue, hpost, hk, hi, handled, malformedSuccess]
          | some i => simp [V1.create_issue, hpost, hk, hi, handled, malformedSuccess]
    | httpError code body => simp [V1.create_issue, hpost, handled, malformedSuccess]
    | urlError reason => simp [V1.create_issue, hpost, handled, malformedSuccess]
  · cases hpost : http.post (V2.issueUrl u) hdr (V2.buildPayload pk t) with
    | success ob =>
      cases ob with
      | none => simp [V2.create_issue, hpost, handled, malformedSuccess]
      | some j =>
        cases hk : j.getKey "key" with
        | none => simp [V2.create_issue, hpost, hk, handled, malformedSuccess]
        | some k =>
          cases hi : j.getKey "id" with
          | none => simp [V2.create_issue, hpost, hk, hi, handled, malformedSuccess]
          | some i => simp [V2.create_issue, hpost, hk, hi, handled, malformedSuccess]
    | httpError code body => simp [V2.create_issue, hpost, handled, malformedSuccess]
    | urlError reason => simp [V2.create_issue, hpost, handled, malformedSuccess]
  · cases hget : http.get (V2.projectUrl u pk) hdr with
    | success ob => simp [V2.check_project_exists, hget, handled, isTransport]
    | httpError code body => simp [V2.check_project_exists, hget, handled, isTransport]
    | urlError reason => simp [V2.check_project_exists, hget, handled, isTransport]

/-- Counterexample to C6 as stated: with full configuration and a network
refusing connections, the v2 run does NOT proceed to its summary — the
`URLError` of the probe escapes and crashes `main`.  A 2xx create response
whose body lacks `key` also raises. -/
theorem claim_C6_cex :
    V2.main envOK refusedOracle = .error (.urlErrorUncaught "connection refused")
    ∧ V1.create_issue noKeyOracle "https://x.atlassian.net" "h" "BB" sampleA
        = .error (.keyError "key")
    ∧ V1.create_issue (constOracle (.success none)) "https://x.atlassian.net" "h" "BB" sampleA
        = .error .jsonDecodeError := ⟨rfl, rfl, rfl⟩

/-- C7: `get_auth_header` (both scripts) is a pure total function equal to
`"Basic "` followed by the standard Base64 of `email ++ ":" ++ api_token`;
in particular on `("a@b.com", "tok123")` it yields exactly
`"Basic YUBiLmNvbTp0b2sxMjM="` (the independently computed standard
encoding), and the Base64 encoder meets the RFC 4648 test vectors. -/
theorem claim_C7 :
    (∀ email api_token : String,
      V1.get_auth_header email api_token = "Basic " ++ b64encode (email ++ ":" ++ api_token))
  ∧ (∀ email api_token : String,
      V2.get_auth_header email api_token = "Basic " ++ b64encode (email ++ ":" ++ api_token))
  ∧ V1.get_auth_header "a@b.com" "tok123" = "Basic YUBiLmNvbTp0b2sxMjM="
  ∧ V2.get_auth_header "a@b.com" "tok123" = "Basic YUBiLmNvbTp0b2sxMjM="
  ∧ b64encode "foobar" = "Zm9vYmFy"
  ∧ b64encode "fooba" = "Zm9vYmE="
  ∧ b64encode "foob" = "Zm9vYg==" :=
  ⟨fun _ _ => rfl, fun _ _ => rfl, rfl, rfl, rfl, rfl, rfl⟩

/-- C9 (amended): the `labels` field of the request body is omitted
exactly when the template dict has no `labels` key; whenever the key is
present its value is copied verbatim — even when it is the empty list. -/
theorem claim_C9 (pk : String) (t : IssueTemplate) :
    (t.labels = none →
      payloadLabels (V1.buildPayload pk t) = none
      ∧ payloadLabels (V2.buildPayload pk t) = none)
  ∧ (∀ ls : List String, t.labels = some ls →
      payloadLabels (V1.buildPayload pk t) = some (.arr (ls.map .str))
      ∧ payloadLabels (V2.buildPayload pk t) = some (.arr (ls.map .str))) := by
  obtain ⟨s, d, ity, lab⟩ := t
  constructor
  · intro hn
    cases hn
    exact ⟨rfl, rfl⟩
  · intro ls hs
    cases hs
    exact ⟨rfl, rfl⟩

/-- Witness for C9 at concrete templates with and without a `labels` key. -/
theorem claim_C9_witness :
    (payloadLabels (V1.buildPayload "BB" sampleB) = none
      ∧ payloadLabels (V2.buildPayload "BB" sampleB) = none)
    ∧ (payloadLabels (V1.buildPayload "BB" sampleA) = some (.arr [.str "l1"])
      ∧ payloadLabels (V2.buildPayload "BB" sampleA) = some (.arr [.str "l1"])) :=
  ⟨(claim_C9 "BB" sampleB).1 rfl, (claim_C9 "BB" sampleA).2 ["l1"] rfl⟩

/-- Counterexample to C9 as stated: a template whose labels collection is
empty (the `labels` key present, holding `[]`) does NOT have the field
omitted — both scripts include `"labels": []` in the request body. -/
theorem claim_C9_cex :
    payloadLabels (V1.buildPayload "BB" emptyLabels) = some (Json.arr [])
    ∧ payloadLabels (V2.buildPayload "BB" emptyLabels) = some (Json.arr []) := ⟨rfl, rfl⟩

/-- C3: the batch loop attempts the templates sequentially in the literal
order of the template list — the request log of a completed loop is
exactly one create-POST per template, in order (so each template is
attempted exactly once, with no retry, and a failed attempt does not stop
the batch) — each outcome lands in exactly one of the two accumulators
(`failed` holds exactly the summaries of the non-successful templates, and
the accumulator lengths partition the list), and when every per-template
call is handled the loop runs to completion. -/
theorem claim_C3 (http : HttpOracle) (u hdr pk : String) (ts : List IssueTemplate) :
    ((∀ t ∈ ts, handled (V1.create_issue http u hdr pk t) = true) →
      handled (V1.processIssues http u hdr pk ts) = true)
  ∧ (∀ (c : List Json) (f : List String) (rs : List Req),
      V1.processIssues http u hdr pk ts = .ok (c, f, rs) →
      rs = ts.map (fun t => Req.postReq (V1.issueUrl u) hdr (V1.buildPayload pk t))
      ∧ f = (ts.filter (fun t => !succeeded (V1.create_issue http u hdr pk t))).map
          (fun t => t.summary)
      ∧ c.length = (ts.filter (fun t => succeeded (V1.create_issue http u hdr pk t))).length
      ∧ c.length + f.length = ts.length)
  ∧ ((∀ t ∈ ts, handled (V2.create_issue http u hdr pk t) = true) →
      handled (V2.processIssues http u hdr pk ts) = true)
  ∧ (∀ (c : List V2.CreatedRec) (f : List String) (rs : List Req),
      V2.processIssues http u hdr pk ts = .ok (c, f, rs) →
      rs = ts.map (fun t => Req.postReq (V2.issueUrl u) hdr (V2.buildPayload pk t))
      ∧ f = (ts.filter (fun t => !succeeded (V2.create_issue http u hdr pk t))).map
          (fun t => t.summary)
      ∧ c.length = (ts.filter (fun t => succeeded (V2.create_issue http u hdr pk t))).length
      ∧ c.length + f.length = ts.length) :=
  ⟨v1_processIssues_handled http u hdr pk ts,
   fun c f rs h => v1_processIssues_spec http u hdr pk ts c f rs h,
   v2_processIssues_handled http u hdr pk ts,
   fun c f rs h => v2_processIssues_spec http u hdr pk ts c f rs h⟩

/-- Witness for C3: a two-template batch against an always-rejecting
endpoint — both templates are attempted (two POSTs, in order), both land
in `failed`, and the loop completes. -/
theorem claim_C3_witness :
    ([Req.postReq (V1.issueUrl "u") "h" (V1.buildPayload "BB" sampleA),
      Req.postReq (V1.issueUrl "u") "h" (V1.buildPayload "BB" sampleB)]
      = [sampleA, sampleB].map (fun t => Req.postReq (V1.issueUrl "u") "h" (V1.buildPayload "BB" t))
    ∧ ["s1", "s2"] = ([sampleA, sampleB].filter (fun t =>
        !succeeded (V1.create_issue badReqOracle "u" "h" "BB" t))).map (fun t => t.summary)
    ∧ ([] : List Json).length = ([sampleA, sampleB].filter (fun t =>
        succeeded (V1.create_issue badReqOracle "u" "h" "BB" t))).length
    ∧ ([] : List Json).length + (["s1", "s2"]).length = [sampleA, sampleB].length)
    ∧ handled (V1.processIssues badReqOracle "u" "h" "BB" [sampleA, sampleB]) = true :=
  ⟨(claim_C3 badReqOracle "u" "h" "BB" [sampleA, sampleB]).2.1 []
      ["s1", "s2"]
      [Req.postReq (V1.issueUrl "u") "h" (V1.buildPayload "BB" sampleA),
       Req.postReq (V1.issueUrl "u") "h" (V1.buildPayload "BB" sampleB)] rfl,
   (claim_C3 badReqOracle "u" "h" "BB" [sampleA, sampleB]).1 (by decide)⟩

/-- C8: trailing slashes are stripped from the base URL before use —
`rstripSlash` never leaves a trailing `/` — and every constructed URL
(create endpoint, project probe, browse URL) is the normalized base
followed directly by a single-`/` path, so no double slash precedes the
path segment; the first request a configured v2 run issues hits the probe
URL built from the normalized base; concretely,
`https://x.atlassian.net/` normalizes to `https://x.atlassian.net`. -/
theorem claim_C8 :
    (∀ (base : String) (c : Char),
      (rstripSlash base).data.getLast? = some c → (c == '/') = false)
  ∧ (∀ u : String, V1.issueUrl u = u ++ "/rest/api/3/issue")
  ∧ (∀ u : String, V2.issueUrl u = u ++ "/rest/api/2/issue")
  ∧ (∀ u pk : String, V2.projectUrl u pk = u ++ "/rest/api/2/project/" ++ pk)
  ∧ (∀ (u : String) (k : Json), V2.browseUrl u k = u ++ "/browse/" ++ pyStr k)
  ∧ (∀ (env : Env) (http : HttpOracle) (r : V2.Report),
      V2.main env http = .ok r → (missingVars env).isEmpty = true →
      r.requests.head? = some (Req.getReq
        (V2.projectUrl (rstripSlash (env.jira_url.getD "")) V2.PROJECT_KEY)
        (V2.get_auth_header (env.jira_email.getD "") (env.jira_api_token.getD ""))))
  ∧ rstripSlash "https://x.atlassian.net/" = "https://x.atlassian.net" := by
  refine ⟨rstripSlash_no_trailing, fun _ => rfl, fun _ => rfl, fun _ _ => rfl,
    fun _ _ => rfl, ?_, rfl⟩
  intro env http r h hm
  simp only [V2.main] at h
  rw [if_pos hm] at h
  cases hchk : V2.check_project_exists http (rstripSlash (env.jira_url.getD ""))
      (V2.get_auth_header (env.jira_email.getD "") (env.jira_api_token.getD ""))
      V2.PROJECT_KEY with
  | error e => rw [hchk] at h; simp at h
  | ok b =>
    rw [hchk] at h
    cases b with
    | false =>
      simp only [Except.ok.injEq] at h
      subst h
      rfl
    | true =>
      cases hp : V2.processIssues http (rstripSlash (env.jira_url.getD ""))
          (V2.get_auth_header (env.jira_email.getD "") (env.jira_api_token.getD ""))
          V2.PROJECT_KEY V2.ISSUES with
      | error e => rw [hp] at h; simp at h
      | ok triple =>
        obtain ⟨c, f, rs⟩ := triple
        rw [hp] at h
        simp only [Except.ok.injEq] at h
        subst h
        rfl

/-- Witness for C8: the normalized example base ends in `t`, not `/`, and
a configured run against an always-404 network issues the probe request
built from the normalized base first. -/
theorem claim_C8_witness :
    (('t' == '/') = false)
    ∧ ((⟨[], [Req.getReq (V2.projectUrl (rstripSlash "https://x.atlassian.net/") V2.PROJECT_KEY)
          (V2.get_auth_header "a@b.com" "tok123")], [], [], 1⟩ : V2.Report)).requests.head?
        = some (Req.getReq (V2.projectUrl (rstripSlash (envOK.jira_url.getD "")) V2.PROJECT_KEY)
          (V2.get_auth_header (envOK.jira_email.getD "") (envOK.jira_api_token.getD ""))) :=
  ⟨claim_C8.1 "https://x.atlassian.net/" 't' rfl,
   claim_C8.2.2.2.2.2.1 envOK nf404Oracle _ rfl rfl⟩

/-- The `missing` list is empty exactly when all three env values are truthy. -/
theorem missingVars_isEmpty (env : Env) :
    (missingVars env).isEmpty
      = (pyTruthy env.jira_url && pyTruthy env.jira_email && pyTruthy env.jira_api_token) := by
  cases hu : pyTruthy env.jira_url <;> cases he : pyTruthy env.jira_email <;>
    cases ht : pyTruthy env.jira_api_token <;>
    simp only [missingVars, hu, he, ht] <;> decide

/-- With a nonempty `missing` list, both `main`s print the list and exit 1
without touching the network. -/
theorem main_missing_report (env : Env) (http : HttpOracle)
    (h : (missingVars env).isEmpty = false) :
    V1.main env http = .ok ⟨missingVars env, [], [], [], 1⟩
    ∧ V2.main env http = .ok ⟨missingVars env, [], [], [], 1⟩ := by
  constructor
  · simp only [V1.main]
    rw [if_neg (by simp [h])]
  · simp only [V2.main]
    rw [if_neg (by simp [h])]

/-- C4: if any of the three environment values is absent, both scripts
exit with status 1 after building the `missing` listing, issuing no HTTP
request of any kind (the request log of the report is empty); and the
name of a variable appears in the listing exactly when its value fails the truthiness
test — in particular every absent variable is listed and every non-empty
variable is not. -/
theorem claim_C4 (env : Env) (http : HttpOracle) :
    ((env.jira_url = none ∨ env.jira_email = none ∨ env.jira_api_token = none) →
      (missingVars env).isEmpty = false
      ∧ V1.main env http = .ok ⟨missingVars env, [], [], [], 1⟩
      ∧ V2.main env http = .ok ⟨missingVars env, [], [], [], 1⟩)
  ∧ (("JIRA_URL" ∈ missingVars env) ↔ pyTruthy env.jira_url = false)
  ∧ (("JIRA_EMAIL" ∈ missingVars env) ↔ pyTruthy env.jira_email = false)
  ∧ (("JIRA_API_TOKEN" ∈ missingVars env) ↔ pyTruthy env.jira_api_token = false) := by
  refine ⟨?_, ?_, ?_, ?_⟩
  · intro h
    have h1 : (missingVars env).isEmpty = false := by
      rw [missingVars_isEmpty]
      rcases h with h | h | h <;> simp [pyTruthy, h]
    exact ⟨h1, (main_missing_report env http h1).1, (main_missing_report env http h1).2⟩
  · cases hu : pyTruthy env.jira_url <;> cases he : pyTruthy env.jira_email <;>
      cases ht : pyTruthy env.jira_api_token <;>
      simp only [missingVars, hu, he, ht] <;> decide
  · cases hu : pyTruthy env.jira_url <;> cases he : pyTruthy env.jira_email <;>
      cases ht : pyTruthy env.jira_api_token <;>
      simp only [missingVars, hu, he, ht] <;> decide
  · cases hu : pyTruthy env.jira_url <;> cases he : pyTruthy env.jira_email <;>
      cases ht : pyTruthy env.jira_api_token <;>
      simp only [missingVars, hu, he, ht] <;> decide

/-- Witness for C4: with only the base URL unset, both scripts report
exactly `["JIRA_URL"]` and exit 1 with no requests. -/
theorem claim_C4_witness :
    (missingVars ⟨none, some "a@b.com", some "tok123"⟩).isEmpty = false
    ∧ V1.main ⟨none, some "a@b.com", some "tok123"⟩ refusedOracle
        = .ok ⟨missingVars ⟨none, some "a@b.com", some "tok123"⟩, [], [], [], 1⟩
    ∧ V2.main ⟨none, some "a@b.com", some "tok123"⟩ refusedOracle
        = .ok ⟨missingVars ⟨none, some "a@b.com", some "tok123"⟩, [], [], [], 1⟩ :=
  (claim_C4 ⟨none, some "a@b.com", some "tok123"⟩ refusedOracle).1 (Or.inl rfl)

/-- C10: a variable set to the empty string is treated exactly like an
absent one — both scripts behave identically on the two environments, the
name of the variable appears in the `missing` listing, and the run reports the
listing and exits 1 with no requests. -/
theorem claim_C10 (env : Env) (http : HttpOracle) :
    (V1.main { env with jira_url := some "" } http
      = V1.main { env with jira_url := none } http)
  ∧ (V2.main { env with jira_url := some "" } http
      = V2.main { env with jira_url := none } http)
  ∧ (V1.main { env with jira_email := some "" } http
      = V1.main { env with jira_email := none } http)
  ∧ (V2.main { env with jira_email := some "" } http
      = V2.main { env with jira_email := none } http)
  ∧ (V1.main { env with jira_api_token := some "" } http
      = V1.main { env with jira_api_token := none } http)
  ∧ (V2.main { env with jira_api_token := some "" } http
      = V2.main { env with jira_api_token := none } http)
  ∧ "JIRA_URL" ∈ missingVars { env with jira_url := some "" }
  ∧ "JIRA_EMAIL" ∈ missingVars { env with jira_email := some "" }
  ∧ "JIRA_API_TOKEN" ∈ missingVars { env with jira_api_token := some "" }
  ∧ V1.main { env with jira_url := some "" } http
      = .ok ⟨missingVars { env with jira_url := some "" }, [], [], [], 1⟩
  ∧ V2.main { env with jira_url := some "" } http
      = .ok ⟨missingVars { env with jira_url := some "" }, [], [], [], 1⟩
  ∧ V1.main { env with jira_email := some "" } http
      = .ok ⟨missingVars { env with jira_email := some "" }, [], [], [], 1⟩
  ∧ V2.main { env with jira_email := some "" } http
      = .ok ⟨missingVars { env with jira_email := some "" }, [], [], [], 1⟩
  ∧ V1.main { env with jira_api_token := some "" } http
      = .ok ⟨missingVars { env with jira_api_token := some "" }, [], [], [], 1⟩
  ∧ V2.main { env with jira_api_token := some "" } http
      = .ok ⟨missingVars { env with jira_api_token := some "" }, [], [], [], 1⟩ := by
  have hu : (missingVars { env with jira_url := some "" }).isEmpty = false := by
    rw [missingVars_isEmpty]; simp [pyTruthy]
  have he : (missingVars { env with jira_email := some "" }).isEmpty = false := by
    rw [missingVars_isEmpty]; simp [pyTruthy]
  have ht : (missingVars { env with jira_api_token := some "" }).isEmpty = false := by
    rw [missingVars_isEmpty]; simp [pyTruthy]
  refine ⟨rfl, rfl, rfl, rfl, rfl, rfl, ?_, ?_, ?_,
    (main_missing_report _ http hu).1, (main_missing_report _ http hu).2,
    (main_missing_report _ http he).1, (main_missing_report _ http he).2,
    (main_missing_report _ http ht).1, (main_missing_report _ http ht).2⟩
  · simp [missingVars, pyTruthy]
  · simp [missingVars, pyTruthy]
  · simp [missingVars, pyTruthy]

/-- C2: the exit status of a completed run is 0 or 1; it is 0 exactly when all
configuration is present, the project probe (v2 only, when performed)
returned `True`, and no issue-creation attempt failed; and with
configuration present (and, for v2, the probe successful) the `failed`
accumulator is empty exactly when every per-template `create_issue` call
returned the success dict. -/
theorem claim_C2 (env : Env) (http : HttpOracle) :
    (∀ r : V1.Report, V1.main env http = .ok r →
      (r.exitCode = 0 ∨ r.exitCode = 1)
      ∧ (r.exitCode = 0 ↔ missingVars env = [] ∧ r.failed = [])
      ∧ (missingVars env = [] →
          (r.failed = [] ↔ ∀ t ∈ V1.ISSUES,
            succeeded (V1.create_issue http (rstripSlash (env.jira_url.getD ""))
              (V1.get_auth_header (env.jira_email.getD "") (env.jira_api_token.getD ""))
              V1.PROJECT_KEY t) = true)))
  ∧ (∀ r : V2.Report, V2.main env http = .ok r →
      (r.exitCode = 0 ∨ r.exitCode = 1)
      ∧ (r.exitCode = 0 ↔ missingVars env = []
          ∧ V2.check_project_exists http (rstripSlash (env.jira_url.getD ""))
              (V2.get_auth_header (env.jira_email.getD "") (env.jira_api_token.getD ""))
              V2.PROJECT_KEY = .ok true
          ∧ r.failed = [])
      ∧ (missingVars env = [] →
          V2.check_project_exists http (rstripSlash (env.jira_url.getD ""))
              (V2.get_auth_header (env.jira_email.getD "") (env.jira_api_token.getD ""))
              V2.PROJECT_KEY = .ok true →
          (r.failed = [] ↔ ∀ t ∈ V2.ISSUES,
            succeeded (V2.create_issue http (rstripSlash (env.jira_url.getD ""))
              (V2.get_auth_header (env.jira_email.getD "") (env.jira_api_token.getD ""))
              V2.PROJECT_KEY t) = true))) := by
  constructor
  · intro r h
    cases hm : (missingVars env).isEmpty with
    | true =>
      have hm' : missingVars env = [] := List.isEmpty_iff.mp hm
      simp only [V1.main] at h
      rw [if_pos hm] at h
      cases hp : V1.processIssues http (rstripSlash (env.jira_url.getD ""))
          (V1.get_auth_header (env.jira_email.getD "") (env.jira_api_token.getD ""))
          V1.PROJECT_KEY V1.ISSUES with
      | error e => rw [hp] at h; simp at h
      | ok triple =>
        obtain ⟨c, f, rs⟩ := triple
        rw [hp] at h
        simp only [Except.ok.injEq] at h
        subst h
        obtain ⟨-, h2, -, -⟩ := v1_processIssues_spec http _ _ _ V1.ISSUES c f rs hp
        refine ⟨?_, ?_, ?_⟩
        · by_cases hf : f.isEmpty = true <;> simp [hf]
        · by_cases hf : f.isEmpty = true
          · simp [hf, hm', List.isEmpty_iff.mp hf]
          · have hf' : f ≠ [] := fun hnil => hf (by simp [hnil])
            simp [hf, hf']
        · intro _
          rw [h2]
          simp [List.map_eq_nil_iff, List.filter_eq_nil_iff]
    | false =>
      rw [(main_missing_report env http hm).1] at h
      simp only [Except.ok.injEq] at h
      subst h
      have hm' : missingVars env ≠ [] := by
        intro hnil; rw [hnil] at hm; simp at hm
      exact ⟨Or.inr rfl, by simp [hm'], fun hmm => absurd hmm hm'⟩
  · intro r h
    cases hm : (missingVars env).isEmpty with
    | true =>
      have hm' : missingVars env = [] := List.isEmpty_iff.mp hm
      simp only [V2.main] at h
      rw [if_pos hm] at h
      cases hchk : V2.check_project_exists http (rstripSlash (env.jira_url.getD ""))
          (V2.get_auth_header (env.jira_email.getD "") (env.jira_api_token.getD ""))
          V2.PROJECT_KEY with
      | error e => rw [hchk] at h; simp at h
      | ok b =>
        rw [hchk] at h
        cases b with
        | false =>
          simp only [Except.ok.injEq] at h
          subst h
          refine ⟨Or.inr rfl, by simp [hchk], ?_⟩
          intro _ hcheck
          simp at hcheck
        | true =>
          cases hp : V2.processIssues http (rstripSlash (env.jira_url.getD ""))
              (V2.get_auth_header (env.jira_email.getD "") (env.jira_api_token.getD ""))
              V2.PROJECT_KEY V2.ISSUES with
          | error e => rw [hp] at h; simp at h
          | ok triple =>
            obtain ⟨c, f, rs⟩ := triple
            rw [hp] at h
            simp only [Except.ok.injEq] at h
            subst h
            obtain ⟨-, h2, -, -⟩ := v2_processIssues_spec http _ _ _ V2.ISSUES c f rs hp
            refine ⟨?_, ?_, ?_⟩
            · by_cases hf : f.isEmpty = true <;> simp [hf]
            · by_cases hf : f.isEmpty = true
              · simp [hf, hm', hchk, List.isEmpty_iff.mp hf]
              · have hf' : f ≠ [] := fun hnil => hf (by simp [hnil])
                simp [hf, hf']
            · intro _ _
              rw [h2]
              simp [List.map_eq_nil_iff, List.filter_eq_nil_iff]
    | false =>
      rw [(main_missing_report env http hm).2] at h
      simp only [Except.ok.injEq] at h
      subst h
      have hm' : missingVars env ≠ [] := by
        intro hnil; rw [hnil] at hm; simp at hm
      exact ⟨Or.inr rfl, by simp [hm'], fun hmm => absurd hmm hm'⟩

/-- Witness for C2: the all-unset environment completes with exit code 1
(the missing-configuration report), and the code is not 0. -/
theorem claim_C2_witness :
    ((⟨["JIRA_URL", "JIRA_EMAIL", "JIRA_API_TOKEN"], [], [], [], 1⟩ : V1.Report).exitCode = 0
      ∨ (⟨["JIRA_URL", "JIRA_EMAIL", "JIRA_API_TOKEN"], [], [], [], 1⟩ : V1.Report).exitCode = 1)
    ∧ ((⟨["JIRA_URL", "JIRA_EMAIL", "JIRA_API_TOKEN"], [], [], [], 1⟩ : V1.Report).exitCode = 0
      ↔ missingVars envNone = []
        ∧ (⟨["JIRA_URL", "JIRA_EMAIL", "JIRA_API_TOKEN"], [], [], [], 1⟩ : V1.Report).failed = []) :=
  ⟨((claim_C2 envNone refusedOracle).1 _ rfl).1, ((claim_C2 envNone refusedOracle).1 _ rfl).2.1⟩
